import Mathlib

/-!
Shallow embedding of `src/compiler-cli/src/lsp/protocol_adapter.rs`
(the `LanguageServerProtocolAdapter` of the gleam compiler CLI).

Modelling conventions:
- every `connection.sender.send(...)` appends an `OutMessage` to an output
  list, in send order;
- every `panic!` / `.expect(...)` on this layer's own logic (unknown request
  method, parameter decode failure, engine-handle rebuild failure) is an
  abort, modelled by the whole step returning `none`;
- the analysis engine (`LanguageServer`, an external collaborator) is a
  record of operation functions over an abstract state `σ`; the serde
  decoders behind `cast_request` / `cast_notification` are a record of
  partial functions; the external `diagnostic_to_lsp` translation is a
  function parameter;
- encoded JSON values that this layer never inspects are the abstract type
  `Json`; outbound parameter payloads that the layer itself constructs are
  kept structured, since `serde_json::to_value` is an external injective
  encoding.
-/

namespace GleamLsp

/-- An encoded JSON value that this protocol layer never looks inside. -/
abbrev Json := String

/-- A file path (`std::path::PathBuf`). -/
abbrev Path := String

/-- A protocol URI. -/
abbrev Uri := String

/-- Modelled from the spec: `path_to_uri` (defined outside this file's
source, in the `lsp` module) converts an absolute file path to a protocol
URI, a renaming of paths; modelled as an injective embedding. -/
def path_to_uri (path : Path) : Uri :=
  "file://" ++ path

/-- Embeds `gleam_core::diagnostic::Level`: severity of a diagnostic. -/
inductive Level where
  | Error
  | Warning
deriving DecidableEq, Repr

/-- Embeds `gleam_core::diagnostic::Diagnostic`, restricted to the two fields this
protocol layer reads (`level` and `text`); the remaining fields are only
ever passed through to the external `diagnostic_to_lsp` translation. -/
structure Diagnostic where
  level : Level
  text : String
deriving DecidableEq, Repr

/-- The protocol form of a diagnostic produced by the external
`diagnostic_to_lsp` translation; opaque to this layer. -/
abbrev LspDiagnostic := Json

/-- Embeds `feedback::Feedback`: the diagnostics-and-messages bundle returned by
every engine operation.  The `HashMap<PathBuf, Vec<Diagnostic>>` is modelled
as an association list in the hash map's (arbitrary) iteration order; a
real `HashMap` has no duplicate keys. -/
structure Feedback where
  diagnostics : List (Path × List Diagnostic)
  messages : List Diagnostic
deriving DecidableEq, Repr

/-- Embeds `lsp_server::RequestId`: a number or a string. -/
inductive RequestId where
  | num (n : Int)
  | str (s : String)
deriving DecidableEq, Repr

/-- Embeds `lsp_server::Request`: an inbound request with undecoded parameters. -/
structure Request where
  id : RequestId
  method : String
  params : Json
deriving DecidableEq, Repr

/-- Embeds `lsp_server::Notification` (inbound): a method with undecoded
parameters. -/
structure Notification where
  method : String
  params : Json
deriving DecidableEq, Repr

/-- An inbound `lsp_server::Message`: request, notification, or a response
to one of this layer's own outbound requests (always ignored). -/
inductive Message where
  | request (r : Request)
  | notification (n : Notification)
  | response (id : RequestId) (payload : Json)
deriving DecidableEq, Repr

/-- Embeds `lsp_types::MessageType` restricted to the two values this layer
produces. -/
inductive MessageType where
  | ERROR
  | WARNING
deriving DecidableEq, Repr

/-- Embeds `lsp_types::PublishDiagnosticsParams` as constructed by
`publish_diagnostics`. -/
structure PublishDiagnosticsParams where
  uri : Uri
  diagnostics : List LspDiagnostic
  version : Option Int
deriving DecidableEq, Repr

/-- Embeds `lsp_types::ShowMessageParams`. -/
structure ShowMessageParams where
  typ : MessageType
  message : String
deriving DecidableEq, Repr

/-- Embeds `lsp_types::FileSystemWatcher` (only the fields this layer sets). -/
structure FileSystemWatcher where
  glob_pattern : String
  kind : Option Nat
deriving DecidableEq, Repr

/-- Embeds `lsp_types::Registration`. -/
structure Registration where
  id : String
  method : String
  watchers : Option (List FileSystemWatcher)
deriving DecidableEq, Repr

/-- Embeds `lsp_types::RegistrationParams`. -/
structure RegistrationParams where
  registrations : List Registration
deriving DecidableEq, Repr

/-- The structured parameter payloads of the outbound messages this layer
constructs (`serde_json::to_value` of each is an external injective
encoding, so we keep the structured value). -/
inductive OutParams where
  | publishDiagnostics (p : PublishDiagnosticsParams)
  | showMessage (p : ShowMessageParams)
  | registrationParams (p : RegistrationParams)
  | progressCreate (token : String)
deriving DecidableEq, Repr

/-- An outbound `lsp_server::Message` put on `connection.sender`. -/
inductive OutMessage where
  | request (id : RequestId) (method : String) (params : OutParams)
  | notification (method : String) (params : OutParams)
  | response (id : RequestId) (result : Option Json) (error : Option Json)
deriving DecidableEq, Repr

/-- Embeds `lsp_types::WatchKind::Change` (bitflag value 2). -/
def WatchKindChange : Nat := 2

/-- Embeds `Next`: whether the message loop continues or breaks. -/
inductive Next where
  | Continue
  | Break
deriving DecidableEq, Repr

/-- The serde decoders behind `cast_request::<R>` and
`cast_notification::<N>` for each recognized method (external library
code): a partial decoding of the raw parameter value, whose failure the
adapter turns into a panic via `.expect`. The decoded typed parameter
values are opaque to this layer, so they stay `Json`. -/
structure Decoders where
  formatting : Json → Option Json
  hover : Json → Option Json
  goto_definition : Json → Option Json
  completion : Json → Option Json
  did_open : Json → Option Json
  did_save : Json → Option Json
  did_close : Json → Option Json
  did_change : Json → Option Json

/-- The analysis engine (`LanguageServer`, an external collaborator) over an
abstract mutable state `σ`.  Request operations are viewed through the
external `convert_response`, so they yield an encoded payload together with
`Feedback`; notification operations yield only `Feedback`;
`create_new_compiler` returns `Result`, hence `Option` here. -/
structure Engine (σ : Type) where
  format : σ → Json → σ × Json × Feedback
  hover : σ → Json → σ × Json × Feedback
  goto_definition : σ → Json → σ × Json × Feedback
  completion : σ → Json → σ × Json × Feedback
  text_document_did_open : σ → Json → σ × Feedback
  text_document_did_save : σ → Json → σ × Feedback
  text_document_did_close : σ → Json → σ × Feedback
  text_document_did_change : σ → Json → σ × Feedback
  create_new_compiler : σ → Option σ
  compile_please : σ → σ × Feedback

/-- Embeds `lsp_types::DidChangeWatchedFilesClientCapabilities` (the one field
read). -/
structure DidChangeWatchedFilesClientCapabilities where
  dynamic_registration : Option Bool
deriving DecidableEq, Repr

/-- Embeds `lsp_types::WorkspaceClientCapabilities` (the one field read). -/
structure WorkspaceClientCapabilities where
  did_change_watched_files : Option DidChangeWatchedFilesClientCapabilities
deriving DecidableEq, Repr

/-- Embeds `lsp_types::ClientCapabilities` (the one field read). -/
structure ClientCapabilities where
  workspace : Option WorkspaceClientCapabilities
deriving DecidableEq, Repr

/-- Embeds `lsp_types::InitializeParams` (the one field read). -/
structure InitializeParams where
  capabilities : ClientCapabilities
deriving DecidableEq, Repr

/-- Modelled from the spec: the fixed, well-known progress token identifier
`COMPILING_PROGRESS_TOKEN` (a constant of the `lsp` module, outside this
file's source). -/
def COMPILING_PROGRESS_TOKEN : String := "gleam-compiling"

/-- Modelled from the spec: the fixed request id
`CREATE_COMPILING_PROGRESS_TOKEN` used for the progress-token reservation
request (a constant of the `lsp` module, outside this file's source). -/
def CREATE_COMPILING_PROGRESS_TOKEN : String := "create-compiling-progress-token"

/-- Embeds `publish_diagnostics`: for each `(path, diagnostics)` entry of the
feedback's diagnostics mapping, translate each diagnostic with the external
`diagnostic_to_lsp` (`tr`, via `flat_map`, an external translation that may drop or
multiply entries), and send one `textDocument/publishDiagnostics`
notification for that path's URI carrying exactly the translated list, with
`version: None`. -/
def publish_diagnostics (tr : Diagnostic → List LspDiagnostic)
    (diagnostics : List (Path × List Diagnostic)) : List OutMessage :=
  diagnostics.map fun entry =>
    OutMessage.notification ("textDocument/publishDiagnostics")
      (OutParams.publishDiagnostics
        { uri := path_to_uri entry.1
          diagnostics := entry.2.flatMap tr
          version := none })

/-- Embeds `publish_notifications`: for each message of `Feedback.messages`, in
order, send one `window/showMessage` notification with the level mapped
`Error → ERROR`, `Warning → WARNING` and the text carried unchanged. -/
def publish_notifications (messages : List Diagnostic) : List OutMessage :=
  messages.map fun message =>
    OutMessage.notification ("window/showMessage")
      (OutParams.showMessage
        { typ := match message.level with
            | Level.Error => MessageType.ERROR
            | Level.Warning => MessageType.WARNING
          message := message.text })

/-- Embeds `publish_feedback`: publish the diagnostics, then the messages. -/
def publish_feedback (tr : Diagnostic → List LspDiagnostic)
    (feedback : Feedback) : List OutMessage :=
  publish_diagnostics tr feedback.diagnostics ++
    publish_notifications feedback.messages

/-- Embeds `supports_watch_files`: the capability probe at the start of
`start_watching_gleam_toml` — `initialise_params.capabilities.workspace`
`.as_ref().and_then(|w| w.did_change_watched_files)`
`.map(|wf| wf.dynamic_registration == Some(true)).unwrap_or(false)`. -/
def supports_watch_files (initialise_params : InitializeParams) : Bool :=
  (((initialise_params.capabilities.workspace.bind
      fun w => w.did_change_watched_files).map
      fun wf => wf.dynamic_registration == some true).getD false)

/-- Embeds `start_watching_gleam_toml`: if the client supports dynamic
watched-file registration, send one `client/registerCapability` request
registering a single watcher for the `gleam.toml` glob with change kind;
otherwise log the `lsp_client_cannot_watch_gleam_toml` warning and send
nothing.  Returns the sent messages together with the `tracing` log lines
emitted. -/
def start_watching_gleam_toml (initialise_params : InitializeParams) :
    List OutMessage × List String :=
  if !supports_watch_files initialise_params then
    ([], ["lsp_client_cannot_watch_gleam_toml"])
  else
    let watch_config : Registration :=
      { id := "watch-gleam-toml"
        method := "workspace/didChangeWatchedFiles"
        watchers := some [{ glob_pattern := "gleam.toml"
                            kind := some WatchKindChange }] }
    ([OutMessage.request (RequestId.num 1) ("client/registerCapability")
        (OutParams.registrationParams { registrations := [watch_config] })],
      [])

/-- Embeds `create_compilation_progress_token`: send one
`window/workDoneProgress/create` request with the fixed token. -/
def create_compilation_progress_token : List OutMessage :=
  [OutMessage.request (RequestId.str CREATE_COMPILING_PROGRESS_TOKEN)
      ("window/workDoneProgress/create")
      (OutParams.progressCreate COMPILING_PROGRESS_TOKEN)]

/-- The `match request.method.as_str()` of `handle_request`: for each of
the four recognized methods, decode the parameters with the corresponding
`cast_request` decoder (decode failure panics, hence `none`) and invoke the
corresponding engine operation through `convert_response`, yielding the new
engine state, the encoded payload and the feedback; any other method is the
`panic!("Unsupported LSP request")` arm, hence `none`. -/
def request_operation {σ : Type} (ops : Engine σ) (dec : Decoders)
    (server : σ) (request : Request) : Option (σ × Json × Feedback) :=
  match request.method with
  | "textDocument/formatting" =>
      (dec.formatting request.params).map fun params => ops.format server params
  | "textDocument/hover" =>
      (dec.hover request.params).map fun params => ops.hover server params
  | "textDocument/definition" =>
      (dec.goto_definition request.params).map fun params =>
        ops.goto_definition server params
  | "textDocument/completion" =>
      (dec.completion request.params).map fun params =>
        ops.completion server params
  | _ => none

/-- Embeds `handle_request`: run the request's engine operation, publish the
returned feedback, then send a single `lsp_server::Response` with the
request's id, `error: None` and `result: Some(payload)`.  `none` is a
panic (unsupported method or decode failure). -/
def handle_request {σ : Type} (tr : Diagnostic → List LspDiagnostic)
    (ops : Engine σ) (dec : Decoders) (server : σ) (request : Request) :
    Option (σ × List OutMessage) :=
  (request_operation ops dec server request).map fun step =>
    (step.1,
      publish_feedback tr step.2.2 ++
        [OutMessage.response request.id (some step.2.1) none])

/-- Embeds `handle_notification`: for the four document-sync methods, decode the
parameters (decode failure panics, hence `none`) and forward to the
matching engine operation; for `workspace/didChangeWatchedFiles`, rebuild
the engine handle with `create_new_compiler` (failure panics via
`.expect("create")`) and run `compile_please`; any other method is the
early-`return` arm — no engine call, no output.  All arms except the
early return publish the returned feedback. -/
def handle_notification {σ : Type} (tr : Diagnostic → List LspDiagnostic)
    (ops : Engine σ) (dec : Decoders) (server : σ) (n : Notification) :
    Option (σ × List OutMessage) :=
  match n.method with
  | "textDocument/didOpen" =>
      (dec.did_open n.params).map fun params =>
        let step := ops.text_document_did_open server params
        (step.1, publish_feedback tr step.2)
  | "textDocument/didSave" =>
      (dec.did_save n.params).map fun params =>
        let step := ops.text_document_did_save server params
        (step.1, publish_feedback tr step.2)
  | "textDocument/didClose" =>
      (dec.did_close n.params).map fun params =>
        let step := ops.text_document_did_close server params
        (step.1, publish_feedback tr step.2)
  | "textDocument/didChange" =>
      (dec.did_change n.params).map fun params =>
        let step := ops.text_document_did_change server params
        (step.1, publish_feedback tr step.2)
  | "workspace/didChangeWatchedFiles" =>
      (ops.create_new_compiler server).map fun rebuilt =>
        let step := ops.compile_please rebuilt
        (step.1, publish_feedback tr step.2)
  | _ => some (server, [])

/-- Modelled from the spec: `lsp_server::Connection::handle_shutdown` (the
external transport library) detects the protocol shutdown request — it
returns true exactly when the request's method is `shutdown`, answering it
per standard shutdown semantics on the transport's side. -/
def handle_shutdown (request : Request) : Bool :=
  request.method == "shutdown"

/-- Embeds `handle_message`: a shutdown request breaks the loop; any other request
goes to `handle_request`; a notification goes to `handle_notification`; an
inbound response is ignored.  `none` is a panic inside the handler. -/
def handle_message {σ : Type} (tr : Diagnostic → List LspDiagnostic)
    (ops : Engine σ) (dec : Decoders) (server : σ) (message : Message) :
    Option (σ × List OutMessage × Next) :=
  match message with
  | Message.request request =>
      if handle_shutdown request then
        some (server, [], Next.Break)
      else
        (handle_request tr ops dec server request).map fun step =>
          (step.1, step.2, Next.Continue)
  | Message.notification n =>
      (handle_notification tr ops dec server n).map fun step =>
        (step.1, step.2, Next.Continue)
  | Message.response _ _ => some (server, [], Next.Continue)

/-- The `for message in &connection.receiver` loop of `run`, over the queue
of inbound messages still on the transport: handle each message in turn,
stopping at `Next.Break` (any queued remainder is left unrouted); `none`
is a panic inside a handler.  Returns the final engine state and all
output in send order. -/
def run_loop {σ : Type} (tr : Diagnostic → List LspDiagnostic)
    (ops : Engine σ) (dec : Decoders) :
    σ → List Message → Option (σ × List OutMessage)
  | server, [] => some (server, [])
  | server, message :: rest =>
      (handle_message tr ops dec server message).bind fun step =>
        match step.2.2 with
        | Next.Break => some (step.1, step.2.1)
        | Next.Continue =>
            (run_loop tr ops dec step.1 rest).map fun tail =>
              (tail.1, step.2.1 ++ tail.2)

/-- Embeds `run`: create the progress token, conditionally register the
`gleam.toml` watcher, compile the project once and publish its feedback,
then enter the message loop over the inbound queue.  Returns all outbound
messages in send order (logs dropped here). -/
def run {σ : Type} (tr : Diagnostic → List LspDiagnostic) (ops : Engine σ)
    (dec : Decoders) (initialise_params : InitializeParams) (server : σ)
    (inbox : List Message) : Option (σ × List OutMessage) :=
  let startup :=
    create_compilation_progress_token ++
      (start_watching_gleam_toml initialise_params).1
  let first := ops.compile_please server
  let startup := startup ++ publish_feedback tr first.2
  (run_loop tr ops dec first.1 inbox).map fun tail =>
    (tail.1, startup ++ tail.2)

/-- The request ids of the responses among a list of outbound messages, in
send order. -/
def response_ids (out : List OutMessage) : List RequestId :=
  out.filterMap fun m =>
    match m with
    | OutMessage.response id _ _ => some id
    | _ => none

/-- Whether an outbound message is a response. -/
def isResponse (m : OutMessage) : Bool :=
  match m with
  | OutMessage.response _ _ _ => true
  | _ => false

/-- Whether an outbound message is a `textDocument/publishDiagnostics`
notification targeting the given URI. -/
def is_diag_notification_for (u : Uri) (m : OutMessage) : Bool :=
  match m with
  | OutMessage.notification ("textDocument/publishDiagnostics")
      (OutParams.publishDiagnostics p) => p.uri == u
  | _ => false

/-- The number of `textDocument/publishDiagnostics` notifications among a
list of outbound messages that target the given URI. -/
def diag_notification_count (u : Uri) (out : List OutMessage) : Nat :=
  (out.filter (is_diag_notification_for u)).length

/-- The statement that, on an inbound request with one of the four
recognized operation methods, the serde decoder behind `cast_request`
rejects the raw parameters (the panic case of the corresponding
`cast_request::<R>` call). -/
def request_decode_failed (dec : Decoders) (r : Request) : Prop :=
  match r.method with
  | "textDocument/formatting" => dec.formatting r.params = none
  | "textDocument/hover" => dec.hover r.params = none
  | "textDocument/definition" => dec.goto_definition r.params = none
  | "textDocument/completion" => dec.completion r.params = none
  | _ => False

/-- The statement that, on an inbound notification with one of the four
document-sync methods, the serde decoder behind `cast_notification`
rejects the raw parameters (the panic case of the corresponding
`cast_notification::<N>` call). -/
def notification_decode_failed (dec : Decoders) (n : Notification) : Prop :=
  match n.method with
  | "textDocument/didOpen" => dec.did_open n.params = none
  | "textDocument/didSave" => dec.did_save n.params = none
  | "textDocument/didClose" => dec.did_close n.params = none
  | "textDocument/didChange" => dec.did_change n.params = none
  | _ => False

/-- A concrete engine instance over `Unit` state, used to evaluate the
development on concrete inputs. -/
def unitEngine : Engine Unit where
  format := fun _ p => ((), "fmt:" ++ p, ⟨[], []⟩)
  hover := fun _ p =>
    ((), "hover:" ++ p, ⟨[("a.gleam", [⟨Level.Warning, "w1"⟩])], []⟩)
  goto_definition := fun _ p => ((), "def:" ++ p, ⟨[], []⟩)
  completion := fun _ p => ((), "comp:" ++ p, ⟨[], []⟩)
  text_document_did_open := fun _ _ =>
    ((), ⟨[("a.gleam", [⟨Level.Error, "e1"⟩])], []⟩)
  text_document_did_save := fun _ _ => ((), ⟨[], []⟩)
  text_document_did_close := fun _ _ => ((), ⟨[], []⟩)
  text_document_did_change := fun _ _ => ((), ⟨[], []⟩)
  create_new_compiler := fun _ => some ()
  compile_please := fun _ => ((), ⟨[], [⟨Level.Warning, "compiled"⟩]⟩)

/-- Decoders that accept every raw parameter value unchanged. -/
def okDecoders : Decoders where
  formatting := fun p => some p
  hover := fun p => some p
  goto_definition := fun p => some p
  completion := fun p => some p
  did_open := fun p => some p
  did_save := fun p => some p
  did_close := fun p => some p
  did_change := fun p => some p

/-- Decoders that reject every raw parameter value. -/
def noneDecoders : Decoders where
  formatting := fun _ => none
  hover := fun _ => none
  goto_definition := fun _ => none
  completion := fun _ => none
  did_open := fun _ => none
  did_save := fun _ => none
  did_close := fun _ => none
  did_change := fun _ => none

/-- A concrete diagnostic translation keeping every diagnostic's text. -/
def idTranslation : Diagnostic → List LspDiagnostic :=
  fun d => [d.text]

/-- Concrete initialise parameters declaring dynamic watched-file
registration support. -/
def capsYes : InitializeParams :=
  ⟨⟨some ⟨some ⟨some true⟩⟩⟩⟩

/-- Concrete initialise parameters declaring no dynamic watched-file
registration support. -/
def capsNo : InitializeParams :=
  ⟨⟨some ⟨some ⟨some false⟩⟩⟩⟩

/-- The expected outbound trace of a concrete full `run` used to
instantiate theorems about responses: progress-token creation, watcher
registration, initial-compile feedback, then the hover request's feedback
and response. -/
def c10OutExample : List OutMessage :=
  [OutMessage.request (RequestId.str CREATE_COMPILING_PROGRESS_TOKEN)
      ("window/workDoneProgress/create")
      (OutParams.progressCreate COMPILING_PROGRESS_TOKEN),
    OutMessage.request (RequestId.num 1) ("client/registerCapability")
      (OutParams.registrationParams
        { registrations := [{ id := "watch-gleam-toml"
                              method := "workspace/didChangeWatchedFiles"
                              watchers := some [{ glob_pattern := "gleam.toml"
                                                  kind := some WatchKindChange }] }] }),
    OutMessage.notification ("window/showMessage")
      (OutParams.showMessage { typ := MessageType.WARNING, message := "compiled" }),
    OutMessage.notification ("textDocument/publishDiagnostics")
      (OutParams.publishDiagnostics
        { uri := path_to_uri ("a.gleam"), diagnostics := ["w1"], version := none }),
    OutMessage.response (RequestId.num 5) (some ("hover:p")) none]

/-- The outbound trace the session loop produces for two consecutive hover
requests with decoded parameters `p1`, `p2`: each request's published
feedback followed by its own correlated response, first request first. -/
def two_hover_out {σ : Type} (tr : Diagnostic → List LspDiagnostic)
    (ops : Engine σ) (server : σ) (r1 r2 : Request) (p1 p2 : Json) :
    List OutMessage :=
  (publish_feedback tr (ops.hover server p1).2.2 ++
      [OutMessage.response r1.id (some (ops.hover server p1).2.1) none]) ++
    ((publish_feedback tr (ops.hover (ops.hover server p1).1 p2).2.2 ++
        [OutMessage.response r2.id
          (some (ops.hover (ops.hover server p1).1 p2).2.1) none]) ++
      [])

/-- The URI embedding of paths is injective. -/
theorem path_to_uri_injective {a b : Path} (h : path_to_uri a = path_to_uri b) :
    a = b := by
  have hd := congrArg String.data h
  simp only [path_to_uri, String.data_append] at hd
  exact String.ext (List.append_cancel_left hd)

/-- Response ids distribute over concatenation of output. -/
theorem response_ids_append (a b : List OutMessage) :
    response_ids (a ++ b) = response_ids a ++ response_ids b :=
  List.filterMap_append a b _

/-- Feedback publishing never sends a response message. -/
theorem isResponse_of_mem_publish_feedback
    (tr : Diagnostic → List LspDiagnostic) (fb : Feedback) (m : OutMessage)
    (hm : m ∈ publish_feedback tr fb) : isResponse m = false := by
  simp only [publish_feedback, publish_diagnostics, publish_notifications,
    List.mem_append, List.mem_map] at hm
  rcases hm with ⟨e, _, rfl⟩ | ⟨e, _, rfl⟩ <;> rfl

/-- Feedback publishing contributes no response ids. -/
theorem response_ids_publish_feedback
    (tr : Diagnostic → List LspDiagnostic) (fb : Feedback) :
    response_ids (publish_feedback tr fb) = [] := by
  simp [response_ids, publish_feedback, publish_diagnostics,
    publish_notifications, List.filterMap_append, List.filterMap_map,
    Function.comp]

/-- C2: once a shutdown request is handled the session loop terminates
immediately: the loop yields the current state with no output from that
point, and no further inbound message — even ones already queued on the
transport — is routed. -/
theorem C2_shutdown_terminates_loop {σ : Type}
    (tr : Diagnostic → List LspDiagnostic) (ops : Engine σ) (dec : Decoders)
    (server : σ) (r : Request) (rest : List Message)
    (h : r.method = "shutdown") :
    run_loop tr ops dec server (Message.request r :: rest) =
      some (server, []) := by
  simp [run_loop, handle_message, handle_shutdown, h]

/-- C2 witness: the shutdown request terminates a concrete session with a
further notification still queued. -/
theorem C2_shutdown_terminates_loop_witness :
    run_loop idTranslation unitEngine okDecoders ()
      [Message.request ⟨RequestId.num 1, "shutdown", "x"⟩,
        Message.notification ⟨"textDocument/didOpen", "y"⟩] =
      some ((), []) :=
  C2_shutdown_terminates_loop idTranslation unitEngine okDecoders ()
    ⟨RequestId.num 1, "shutdown", "x"⟩
    [Message.notification ⟨"textDocument/didOpen", "y"⟩] rfl

/-- C6: an inbound request whose method is none of the four recognized
operation methods and not the shutdown request is the
`panic!("Unsupported LSP request")` arm: the router aborts with no engine
operation invoked and no response sent, and the session loop dies there. -/
theorem C6_unknown_request_fatal {σ : Type}
    (tr : Diagnostic → List LspDiagnostic) (ops : Engine σ) (dec : Decoders)
    (server : σ) (r : Request) (rest : List Message)
    (h1 : r.method ∉ (["textDocument/formatting", "textDocument/hover",
      "textDocument/definition", "textDocument/completion"] : List String))
    (h2 : r.method ≠ "shutdown") :
    request_operation ops dec server r = none ∧
    handle_request tr ops dec server r = none ∧
    handle_message tr ops dec server (Message.request r) = none ∧
    run_loop tr ops dec server (Message.request r :: rest) = none := by
  have hop : request_operation ops dec server r = none := by
    unfold request_operation
    split <;> simp_all
  have hreq : handle_request tr ops dec server r = none := by
    simp [handle_request, hop]
  have hsd : handle_shutdown r = false := by
    simp [handle_shutdown, h2]
  have hmsg : handle_message tr ops dec server (Message.request r) = none := by
    simp [handle_message, hsd, hreq]
  exact ⟨hop, hreq, hmsg, by simp [run_loop, hmsg]⟩

/-- C6 witness: a concrete request with the unrecognized method
`workspace/executeCommand` aborts the session. -/
theorem C6_unknown_request_fatal_witness :
    request_operation unitEngine okDecoders ()
        ⟨RequestId.num 7, "workspace/executeCommand", "p"⟩ = none ∧
    handle_request idTranslation unitEngine okDecoders ()
        ⟨RequestId.num 7, "workspace/executeCommand", "p"⟩ = none ∧
    handle_message idTranslation unitEngine okDecoders ()
        (Message.request ⟨RequestId.num 7, "workspace/executeCommand", "p"⟩) =
      none ∧
    run_loop idTranslation unitEngine okDecoders ()
        (Message.request ⟨RequestId.num 7, "workspace/executeCommand", "p"⟩ ::
          [Message.notification ⟨"textDocument/didOpen", "y"⟩]) = none :=
  C6_unknown_request_fatal idTranslation unitEngine okDecoders ()
    ⟨RequestId.num 7, "workspace/executeCommand", "p"⟩
    [Message.notification ⟨"textDocument/didOpen", "y"⟩]
    (by decide) (by decide)

/-- C7: an inbound notification whose method is none of the five
recognized notification methods hits the early-`return` arm: no engine
operation, no outbound message, state unchanged, the loop continues as if
the message had not been there. -/
theorem C7_unknown_notification_ignored {σ : Type}
    (tr : Diagnostic → List LspDiagnostic) (ops : Engine σ) (dec : Decoders)
    (server : σ) (n : Notification) (rest : List Message)
    (h : n.method ∉ (["textDocument/didOpen", "textDocument/didSave",
      "textDocument/didClose", "textDocument/didChange",
      "workspace/didChangeWatchedFiles"] : List String)) :
    handle_notification tr ops dec server n = some (server, []) ∧
    handle_message tr ops dec server (Message.notification n) =
      some (server, [], Next.Continue) ∧
    run_loop tr ops dec server (Message.notification n :: rest) =
      run_loop tr ops dec server rest := by
  have hn : handle_notification tr ops dec server n = some (server, []) := by
    unfold handle_notification
    split <;> simp_all
  refine ⟨hn, by simp [handle_message, hn], ?_⟩
  simp only [run_loop, handle_message, hn, Option.bind_eq_bind,
    Option.some_bind]
  cases hrl : run_loop tr ops dec server rest <;> simp [hrl]

/-- C7 witness: the unrecognized notification method `foo/bar` on a
concrete session produces no output and leaves the loop running. -/
theorem C7_unknown_notification_ignored_witness :
    handle_notification idTranslation unitEngine okDecoders ()
        ⟨"foo/bar", "y"⟩ = some ((), []) ∧
    handle_message idTranslation unitEngine okDecoders ()
        (Message.notification ⟨"foo/bar", "y"⟩) =
      some ((), [], Next.Continue) ∧
    run_loop idTranslation unitEngine okDecoders ()
        (Message.notification ⟨"foo/bar", "y"⟩ ::
          [Message.request ⟨RequestId.num 1, "shutdown", "x"⟩]) =
      run_loop idTranslation unitEngine okDecoders ()
        [Message.request ⟨RequestId.num 1, "shutdown", "x"⟩] :=
  C7_unknown_notification_ignored idTranslation unitEngine okDecoders ()
    ⟨"foo/bar", "y"⟩ [Message.request ⟨RequestId.num 1, "shutdown", "x"⟩]
    (by decide)

/-- C8: `publish_notifications` emits exactly one `window/showMessage`
notification per entry of `Feedback.messages`, positionally — same length,
and the i-th notification carries the i-th message with `Error → ERROR`,
`Warning → WARNING` and the text unchanged (so order is preserved and
nothing is batched). -/
theorem C8_one_show_message_per_entry (messages : List Diagnostic) :
    (publish_notifications messages).length = messages.length ∧
    ∀ i : Nat,
      (publish_notifications messages)[i]? =
        (messages[i]?).map fun message =>
          OutMessage.notification ("window/showMessage")
            (OutParams.showMessage
              { typ := match message.level with
                  | Level.Error => MessageType.ERROR
                  | Level.Warning => MessageType.WARNING
                message := message.text }) := by
  constructor
  · simp [publish_notifications]
  · intro i
    simp [publish_notifications, List.getElem?_map]

/-- The count of publish-diagnostics notifications for a path's URI equals
the multiplicity of that path among the mapping's keys. -/
theorem diag_count_eq_key_count (tr : Diagnostic → List LspDiagnostic)
    (p : Path) (ds : List (Path × List Diagnostic)) :
    diag_notification_count (path_to_uri p) (publish_diagnostics tr ds) =
      (ds.map Prod.fst).count p := by
  unfold diag_notification_count publish_diagnostics
  rw [List.filter_map, List.length_map, List.count_eq_countP,
    List.countP_map, List.countP_eq_length_filter]
  congr 1
  apply List.filter_congr
  intro e _
  by_cases he : e.1 = p
  · simp [Function.comp, is_diag_notification_for, he]
  · have hne : path_to_uri e.1 ≠ path_to_uri p :=
      fun hc => he (path_to_uri_injective hc)
    simp [Function.comp, is_diag_notification_for, he, hne]

/-- C3: `publish_diagnostics` emits, positionally, one
`textDocument/publishDiagnostics` notification per entry of the mapping
(so an empty mapping emits zero), each carrying exactly that entry's
translated diagnostics in engine order (`flat_map` of the translation,
which silently drops what it cannot represent) with `version: None`; under
the hash map's distinct keys, exactly one notification targets each key's
URI and zero target any non-key path. -/
theorem C3_publish_diagnostics_per_key (tr : Diagnostic → List LspDiagnostic)
    (diagnostics : List (Path × List Diagnostic)) :
    (publish_diagnostics tr [] = []) ∧
    (∀ i : Nat,
      (publish_diagnostics tr diagnostics)[i]? =
        (diagnostics[i]?).map fun entry =>
          OutMessage.notification ("textDocument/publishDiagnostics")
            (OutParams.publishDiagnostics
              { uri := path_to_uri entry.1
                diagnostics := entry.2.flatMap tr
                version := none })) ∧
    ((diagnostics.map Prod.fst).Nodup →
      ∀ p : Path, p ∈ diagnostics.map Prod.fst →
        diag_notification_count (path_to_uri p)
          (publish_diagnostics tr diagnostics) = 1) ∧
    (∀ p : Path, p ∉ diagnostics.map Prod.fst →
      diag_notification_count (path_to_uri p)
        (publish_diagnostics tr diagnostics) = 0) := by
  refine ⟨rfl, ?_, ?_, ?_⟩
  · intro i
    simp [publish_diagnostics, List.getElem?_map]
  · intro hnd p hp
    rw [diag_count_eq_key_count]
    exact List.count_eq_one_of_mem hnd hp
  · intro p hp
    rw [diag_count_eq_key_count]
    exact List.count_eq_zero_of_not_mem hp

/-- C3 witness: a concrete two-file mapping gets one notification per key
and none for an absent path. -/
theorem C3_publish_diagnostics_per_key_witness :
    diag_notification_count (path_to_uri ("a.gleam"))
        (publish_diagnostics idTranslation
          [("a.gleam", [⟨Level.Error, "e1"⟩, ⟨Level.Warning, "w1"⟩]),
            ("b.gleam", [⟨Level.Warning, "w2"⟩])]) = 1 ∧
    diag_notification_count (path_to_uri ("c.gleam"))
        (publish_diagnostics idTranslation
          [("a.gleam", [⟨Level.Error, "e1"⟩, ⟨Level.Warning, "w1"⟩]),
            ("b.gleam", [⟨Level.Warning, "w2"⟩])]) = 0 :=
  ⟨(C3_publish_diagnostics_per_key idTranslation
      [("a.gleam", [⟨Level.Error, "e1"⟩, ⟨Level.Warning, "w1"⟩]),
        ("b.gleam", [⟨Level.Warning, "w2"⟩])]).2.2.1 (by decide)
      "a.gleam" (by decide),
    (C3_publish_diagnostics_per_key idTranslation
      [("a.gleam", [⟨Level.Error, "e1"⟩, ⟨Level.Warning, "w1"⟩]),
        ("b.gleam", [⟨Level.Warning, "w2"⟩])]).2.2.2
      "c.gleam" (by decide)⟩

/-- C4: the `client/registerCapability` watcher registration for
`gleam.toml` is sent if and only if the client's declared workspace
capability for dynamic watched-file registration equals `Some(true)`; when
the probe is false (flag absent or false), nothing is sent and only the
degraded-mode warning is logged. -/
theorem C4_watcher_registration_iff (p : InitializeParams) :
    (supports_watch_files p = true ↔
      ∃ w wf, p.capabilities.workspace = some w ∧
        w.did_change_watched_files = some wf ∧
        wf.dynamic_registration = some true) ∧
    (supports_watch_files p = true →
      start_watching_gleam_toml p =
        ([OutMessage.request (RequestId.num 1) ("client/registerCapability")
            (OutParams.registrationParams
              { registrations :=
                  [{ id := "watch-gleam-toml"
                     method := "workspace/didChangeWatchedFiles"
                     watchers := some [{ glob_pattern := "gleam.toml"
                                         kind := some WatchKindChange }] }] })],
          [])) ∧
    (supports_watch_files p = false →
      start_watching_gleam_toml p =
        ([], ["lsp_client_cannot_watch_gleam_toml"])) := by
  refine ⟨?_, ?_, ?_⟩
  · obtain ⟨⟨ws⟩⟩ := p
    rcases ws with _ | w
    · simp [supports_watch_files]
    · rcases w with ⟨_ | wf⟩
      · simp [supports_watch_files]
      · rcases wf with ⟨_ | flag⟩
        · simp [supports_watch_files]
        · rcases flag <;> simp [supports_watch_files]
  · intro h
    simp [start_watching_gleam_toml, h]
  · intro h
    simp [start_watching_gleam_toml, h]

/-- C4 witness: with the flag `Some(true)` the registration request is
sent; with the flag `Some(false)` nothing is sent and the warning is
logged. -/
theorem C4_watcher_registration_iff_witness :
    start_watching_gleam_toml capsYes =
      ([OutMessage.request (RequestId.num 1) ("client/registerCapability")
          (OutParams.registrationParams
            { registrations :=
                [{ id := "watch-gleam-toml"
                   method := "workspace/didChangeWatchedFiles"
                   watchers := some [{ glob_pattern := "gleam.toml"
                                       kind := some WatchKindChange }] }] })],
        []) ∧
    start_watching_gleam_toml capsNo =
      ([], ["lsp_client_cannot_watch_gleam_toml"]) :=
  ⟨(C4_watcher_registration_iff capsYes).2.1 (by decide),
    (C4_watcher_registration_iff capsNo).2.2 (by decide)⟩

/-- C5: a `workspace/didChangeWatchedFiles` notification rebuilds the
engine handle with `create_new_compiler`, runs one `compile_please` full
analysis and publishes its feedback — and in the session loop all of this
happens before any other queued inbound message is processed. -/
theorem C5_watched_files_rebuild {σ : Type}
    (tr : Diagnostic → List LspDiagnostic) (ops : Engine σ) (dec : Decoders)
    (server : σ) (n : Notification) (rest : List Message) (s1 : σ)
    (h : n.method = "workspace/didChangeWatchedFiles")
    (hreb : ops.create_new_compiler server = some s1) :
    handle_notification tr ops dec server n =
      some ((ops.compile_please s1).1,
        publish_feedback tr (ops.compile_please s1).2) ∧
    run_loop tr ops dec server (Message.notification n :: rest) =
      (run_loop tr ops dec (ops.compile_please s1).1 rest).map fun tail =>
        (tail.1, publish_feedback tr (ops.compile_please s1).2 ++ tail.2) := by
  have hn : handle_notification tr ops dec server n =
      some ((ops.compile_please s1).1,
        publish_feedback tr (ops.compile_please s1).2) := by
    simp [handle_notification, h, hreb]
  exact ⟨hn, by simp [run_loop, handle_message, hn]⟩

/-- C5 witness: the configuration-change notification on a concrete
session rebuilds and recompiles before the rest of the queue. -/
theorem C5_watched_files_rebuild_witness :
    handle_notification idTranslation unitEngine okDecoders ()
        ⟨"workspace/didChangeWatchedFiles", "z"⟩ =
      some ((unitEngine.compile_please ()).1,
        publish_feedback idTranslation (unitEngine.compile_please ()).2) ∧
    run_loop idTranslation unitEngine okDecoders ()
        [Message.notification ⟨"workspace/didChangeWatchedFiles", "z"⟩] =
      (run_loop idTranslation unitEngine okDecoders ()
          ([] : List Message)).map fun tail =>
        (tail.1,
          publish_feedback idTranslation (unitEngine.compile_please ()).2 ++
            tail.2) :=
  C5_watched_files_rebuild idTranslation unitEngine okDecoders ()
    ⟨"workspace/didChangeWatchedFiles", "z"⟩ [] () rfl rfl

/-- A successful `handle_request` output is exactly the published feedback
followed by the single response correlated to the request's id, with
`error: None` and `result: Some(payload)`. -/
theorem handle_request_out_shape {σ : Type}
    (tr : Diagnostic → List LspDiagnostic) (ops : Engine σ) (dec : Decoders)
    (server : σ) (r : Request) (s : σ) (out : List OutMessage)
    (h : handle_request tr ops dec server r = some (s, out)) :
    ∃ step, request_operation ops dec server r = some step ∧
      out = publish_feedback tr step.2.2 ++
        [OutMessage.response r.id (some step.2.1) none] := by
  unfold handle_request at h
  rcases Option.map_eq_some'.mp h with ⟨a, ha, hg⟩
  rw [Prod.mk.injEq] at hg
  exact ⟨a, ha, hg.2.symm⟩

/-- A successful `handle_notification` output is empty (the ignored case)
or exactly the published feedback of the invoked engine operation. -/
theorem handle_notification_out_shape {σ : Type}
    (tr : Diagnostic → List LspDiagnostic) (ops : Engine σ) (dec : Decoders)
    (server : σ) (n : Notification) (s : σ) (out : List OutMessage)
    (h : handle_notification tr ops dec server n = some (s, out)) :
    out = [] ∨ ∃ fb, out = publish_feedback tr fb := by
  unfold handle_notification at h
  split at h <;>
    first
      | (rcases Option.map_eq_some'.mp h with ⟨a, -, hg⟩
         dsimp only at hg
         rw [Prod.mk.injEq] at hg
         exact Or.inr ⟨_, hg.2.symm⟩)
      | (rw [Option.some_inj, Prod.mk.injEq] at h
         exact Or.inl h.2.symm)

/-- Every response among a successful `handle_message` output carries
`error: None` and a `Some` result. -/
theorem handle_message_response_shape {σ : Type}
    (tr : Diagnostic → List LspDiagnostic) (ops : Engine σ) (dec : Decoders)
    (server : σ) (message : Message) (step : σ × List OutMessage × Next)
    (h : handle_message tr ops dec server message = some step) :
    ∀ m ∈ step.2.1, isResponse m = true →
      ∃ id payload, m = OutMessage.response id (some payload) none := by
  intro m hm hr
  cases message with
  | request r =>
      simp only [handle_message] at h
      by_cases hsd : handle_shutdown r
      · rw [if_pos hsd, Option.some_inj] at h
        subst h
        simp at hm
      · rw [if_neg hsd] at h
        rcases Option.map_eq_some'.mp h with ⟨a, ha, hg⟩
        subst hg
        obtain ⟨stp, -, hout⟩ :=
          handle_request_out_shape tr ops dec server r a.1 a.2
            (by simpa using ha)
        rw [hout] at hm
        rcases List.mem_append.mp hm with hmm | hmm
        · exact absurd hr
            (by simp [isResponse_of_mem_publish_feedback tr _ m hmm])
        · rw [List.mem_singleton] at hmm
          exact ⟨r.id, stp.2.1, hmm⟩
  | notification n =>
      simp only [handle_message] at h
      rcases Option.map_eq_some'.mp h with ⟨a, ha, hg⟩
      subst hg
      rcases handle_notification_out_shape tr ops dec server n a.1 a.2
          (by simpa using ha) with hout | ⟨fb, hout⟩
      · rw [hout] at hm
        simp at hm
      · rw [hout] at hm
        exact absurd hr
          (by simp [isResponse_of_mem_publish_feedback tr fb m hm])
  | response id payload =>
      simp only [handle_message, Option.some_inj] at h
      subst h
      simp at hm

/-- Every response among a successful `run_loop` output carries
`error: None` and a `Some` result. -/
theorem run_loop_response_shape {σ : Type}
    (tr : Diagnostic → List LspDiagnostic) (ops : Engine σ) (dec : Decoders) :
    ∀ (msgs : List Message) (server s : σ) (out : List OutMessage),
      run_loop tr ops dec server msgs = some (s, out) →
      ∀ m ∈ out, isResponse m = true →
        ∃ id payload, m = OutMessage.response id (some payload) none := by
  intro msgs
  induction msgs with
  | nil =>
      intro server s out h m hm _
      rw [run_loop, Option.some_inj, Prod.mk.injEq] at h
      rw [← h.2] at hm
      simp at hm
  | cons msg rest ih =>
      intro server s out h m hm hr
      rw [run_loop] at h
      cases hmsg : handle_message tr ops dec server msg with
      | none => rw [hmsg] at h; simp at h
      | some step =>
          rw [hmsg] at h
          simp only [Option.some_bind] at h
          cases hnx : step.2.2 with
          | Break =>
              rw [hnx, Option.some_inj, Prod.mk.injEq] at h
              rw [← h.2] at hm
              exact handle_message_response_shape tr ops dec server msg step
                hmsg m hm hr
          | Continue =>
              rw [hnx] at h
              cases hrl : run_loop tr ops dec step.1 rest with
              | none => rw [hrl] at h; simp at h
              | some tail =>
                  rw [hrl] at h
                  simp only [Option.map_eq_map, Option.map_some',
                    Option.some_inj, Prod.mk.injEq] at h
                  rw [← h.2] at hm
                  rcases List.mem_append.mp hm with hmm | hmm
                  · exact handle_message_response_shape tr ops dec server msg
                      step hmsg m hmm hr
                  · exact ih step.1 tail.1 tail.2 (by simpa using hrl) m hmm hr

/-- The conditional watcher registration never sends a response. -/
theorem isResponse_of_mem_watch (ip : InitializeParams) (m : OutMessage)
    (hm : m ∈ (start_watching_gleam_toml ip).1) : isResponse m = false := by
  unfold start_watching_gleam_toml at hm
  by_cases h : supports_watch_files ip <;> simp [h] at hm
  subst hm
  rfl

/-- C10: every response the adapter sends over a whole run carries
`error: None` and a `Some` result payload — no protocol-level error
response is ever produced on the success path. -/
theorem C10_responses_never_carry_error {σ : Type}
    (tr : Diagnostic → List LspDiagnostic) (ops : Engine σ) (dec : Decoders)
    (ip : InitializeParams) (server : σ) (inbox : List Message) (s : σ)
    (out : List OutMessage)
    (h : run tr ops dec ip server inbox = some (s, out)) :
    ∀ m ∈ out, isResponse m = true →
      ∃ id payload, m = OutMessage.response id (some payload) none := by
  intro m hm hr
  unfold run at h
  rcases Option.map_eq_some'.mp h with ⟨tail, htail, hg⟩
  rw [Prod.mk.injEq] at hg
  rw [← hg.2] at hm
  rcases List.mem_append.mp hm with hmm | hmm
  · rcases List.mem_append.mp hmm with hmm2 | hmm2
    · rcases List.mem_append.mp hmm2 with hmm3 | hmm3
      · rw [create_compilation_progress_token, List.mem_singleton] at hmm3
        subst hmm3
        simp [isResponse] at hr
      · exact absurd hr (by simp [isResponse_of_mem_watch ip m hmm3])
    · exact absurd hr
        (by simp [isResponse_of_mem_publish_feedback tr _ m hmm2])
  · exact run_loop_response_shape tr ops dec inbox
      (ops.compile_please server).1 tail.1 tail.2 (by simpa using htail)
      m hmm hr

/-- The response ids of a single response message. -/
theorem response_ids_single (id : RequestId) (x e : Option Json) :
    response_ids [OutMessage.response id x e] = [id] := rfl

/-- The response ids of an empty output. -/
theorem response_ids_nil : response_ids [] = [] := rfl

/-- A leading response message contributes its id to the response ids. -/
theorem response_ids_cons_response (id : RequestId) (x e : Option Json)
    (rest : List OutMessage) :
    response_ids (OutMessage.response id x e :: rest) =
      id :: response_ids rest := rfl

/-- C1: for each of the four recognized request methods, the router
decodes the parameters, invokes the corresponding engine operation,
publishes the returned feedback, then sends the single response correlated
to the request's id; every successful `handle_request` emits exactly one
response, carrying the request's id; and two sequential hover requests
with different ids each receive exactly one correlated response, in
request order. -/
theorem C1_recognized_request_dispatch {σ : Type}
    (tr : Diagnostic → List LspDiagnostic) (ops : Engine σ)
    (dec : Decoders) :
    (∀ (server : σ) (r : Request) (params : Json),
      r.method = "textDocument/formatting" →
      dec.formatting r.params = some params →
      handle_request tr ops dec server r =
        some ((ops.format server params).1,
          publish_feedback tr (ops.format server params).2.2 ++
            [OutMessage.response r.id
              (some (ops.format server params).2.1) none])) ∧
    (∀ (server : σ) (r : Request) (params : Json),
      r.method = "textDocument/hover" →
      dec.hover r.params = some params →
      handle_request tr ops dec server r =
        some ((ops.hover server params).1,
          publish_feedback tr (ops.hover server params).2.2 ++
            [OutMessage.response r.id
              (some (ops.hover server params).2.1) none])) ∧
    (∀ (server : σ) (r : Request) (params : Json),
      r.method = "textDocument/definition" →
      dec.goto_definition r.params = some params →
      handle_request tr ops dec server r =
        some ((ops.goto_definition server params).1,
          publish_feedback tr (ops.goto_definition server params).2.2 ++
            [OutMessage.response r.id
              (some (ops.goto_definition server params).2.1) none])) ∧
    (∀ (server : σ) (r : Request) (params : Json),
      r.method = "textDocument/completion" →
      dec.completion r.params = some params →
      handle_request tr ops dec server r =
        some ((ops.completion server params).1,
          publish_feedback tr (ops.completion server params).2.2 ++
            [OutMessage.response r.id
              (some (ops.completion server params).2.1) none])) ∧
    (∀ (server : σ) (r : Request) (s : σ) (out : List OutMessage),
      handle_request tr ops dec server r = some (s, out) →
      response_ids out = [r.id]) ∧
    (∀ (server : σ) (r1 r2 : Request) (p1 p2 : Json),
      r1.method = "textDocument/hover" →
      r2.method = "textDocument/hover" →
      r1.id ≠ r2.id →
      dec.hover r1.params = some p1 →
      dec.hover r2.params = some p2 →
      run_loop tr ops dec server
          [Message.request r1, Message.request r2] =
        some ((ops.hover (ops.hover server p1).1 p2).1,
          two_hover_out tr ops server r1 r2 p1 p2) ∧
      response_ids (two_hover_out tr ops server r1 r2 p1 p2) =
        [r1.id, r2.id] ∧
      (response_ids (two_hover_out tr ops server r1 r2 p1 p2)).count r1.id =
        1 ∧
      (response_ids (two_hover_out tr ops server r1 r2 p1 p2)).count r2.id =
        1) := by
  refine ⟨?_, ?_, ?_, ?_, ?_, ?_⟩
  · intro server r params hm hd
    simp [handle_request, request_operation, hm, hd]
  · intro server r params hm hd
    simp [handle_request, request_operation, hm, hd]
  · intro server r params hm hd
    simp [handle_request, request_operation, hm, hd]
  · intro server r params hm hd
    simp [handle_request, request_operation, hm, hd]
  · intro server r s out h
    obtain ⟨step, -, hout⟩ :=
      handle_request_out_shape tr ops dec server r s out h
    rw [hout, response_ids_append, response_ids_publish_feedback,
      response_ids_single, List.nil_append]
  · intro server r1 r2 p1 p2 hm1 hm2 hid hd1 hd2
    have h1 : handle_message tr ops dec server (Message.request r1) =
        some ((ops.hover server p1).1,
          publish_feedback tr (ops.hover server p1).2.2 ++
            [OutMessage.response r1.id
              (some (ops.hover server p1).2.1) none],
          Next.Continue) := by
      simp [handle_message, handle_shutdown, hm1, handle_request,
        request_operation, hd1]
    have h2 : handle_message tr ops dec (ops.hover server p1).1
          (Message.request r2) =
        some ((ops.hover (ops.hover server p1).1 p2).1,
          publish_feedback tr (ops.hover (ops.hover server p1).1 p2).2.2 ++
            [OutMessage.response r2.id
              (some (ops.hover (ops.hover server p1).1 p2).2.1) none],
          Next.Continue) := by
      simp [handle_message, handle_shutdown, hm2, handle_request,
        request_operation, hd2]
    have hids : response_ids (two_hover_out tr ops server r1 r2 p1 p2) =
        [r1.id, r2.id] := by
      simp [two_hover_out, response_ids_append,
        response_ids_publish_feedback, response_ids_single,
        response_ids_cons_response, response_ids_nil]
    refine ⟨?_, hids, ?_, ?_⟩
    · simp [run_loop, h1, h2, two_hover_out]
    · rw [hids]
      simp [List.count_cons, Ne.symm hid]
    · rw [hids]
      simp [List.count_cons, Ne.symm hid]

/-- C1 witness: two concrete sequential hover requests with ids 1 and 2
each get exactly one correlated response, in request order. -/
theorem C1_recognized_request_dispatch_witness :
    run_loop idTranslation unitEngine okDecoders ()
        [Message.request ⟨RequestId.num 1, "textDocument/hover", "pa"⟩,
          Message.request ⟨RequestId.num 2, "textDocument/hover", "pb"⟩] =
      some ((unitEngine.hover (unitEngine.hover () ("pa")).1 ("pb")).1,
        two_hover_out idTranslation unitEngine ()
          ⟨RequestId.num 1, "textDocument/hover", "pa"⟩
          ⟨RequestId.num 2, "textDocument/hover", "pb"⟩ "pa" "pb") ∧
    response_ids
        (two_hover_out idTranslation unitEngine ()
          ⟨RequestId.num 1, "textDocument/hover", "pa"⟩
          ⟨RequestId.num 2, "textDocument/hover", "pb"⟩ "pa" "pb") =
      [RequestId.num 1, RequestId.num 2] ∧
    (response_ids
        (two_hover_out idTranslation unitEngine ()
          ⟨RequestId.num 1, "textDocument/hover", "pa"⟩
          ⟨RequestId.num 2, "textDocument/hover", "pb"⟩ "pa" "pb")).count
      (RequestId.num 1) = 1 ∧
    (response_ids
        (two_hover_out idTranslation unitEngine ()
          ⟨RequestId.num 1, "textDocument/hover", "pa"⟩
          ⟨RequestId.num 2, "textDocument/hover", "pb"⟩ "pa" "pb")).count
      (RequestId.num 2) = 1 :=
  (C1_recognized_request_dispatch idTranslation unitEngine
      okDecoders).2.2.2.2.2 ()
    ⟨RequestId.num 1, "textDocument/hover", "pa"⟩
    ⟨RequestId.num 2, "textDocument/hover", "pb"⟩ "pa" "pb"
    rfl rfl (by decide) rfl rfl

/-- C9: on a recognized request or notification method whose parameters
fail to deserialize, the corresponding `cast` panics: the handler aborts
(`none`), and the session loop dies there with no recovery. -/
theorem C9_decode_failure_fatal {σ : Type}
    (tr : Diagnostic → List LspDiagnostic) (ops : Engine σ)
    (dec : Decoders) :
    (∀ (server : σ) (r : Request) (rest : List Message),
      request_decode_failed dec r →
      handle_request tr ops dec server r = none ∧
      handle_message tr ops dec server (Message.request r) = none ∧
      run_loop tr ops dec server (Message.request r :: rest) = none) ∧
    (∀ (server : σ) (n : Notification) (rest : List Message),
      notification_decode_failed dec n →
      handle_notification tr ops dec server n = none ∧
      handle_message tr ops dec server (Message.notification n) = none ∧
      run_loop tr ops dec server (Message.notification n :: rest) =
        none) := by
  constructor
  · intro server r rest h
    have hop : request_operation ops dec server r = none := by
      unfold request_operation
      split <;> simp_all [request_decode_failed]
    have hsd : handle_shutdown r = false := by
      unfold handle_shutdown
      unfold request_decode_failed at h
      split at h <;> simp_all
    have hreq : handle_request tr ops dec server r = none := by
      simp [handle_request, hop]
    have hmsg : handle_message tr ops dec server (Message.request r) =
        none := by
      simp [handle_message, hsd, hreq]
    exact ⟨hreq, hmsg, by simp [run_loop, hmsg]⟩
  · intro server n rest h
    have hn : handle_notification tr ops dec server n = none := by
      unfold handle_notification
      split <;> simp_all [notification_decode_failed]
    have hmsg : handle_message tr ops dec server (Message.notification n) =
        none := by
      simp [handle_message, hn]
    exact ⟨hn, hmsg, by simp [run_loop, hmsg]⟩

/-- C9 witness: with decoders that reject everything, a concrete
formatting request and a concrete didOpen notification both abort the
session. -/
theorem C9_decode_failure_fatal_witness :
    (handle_request idTranslation unitEngine noneDecoders ()
        ⟨RequestId.num 3, "textDocument/formatting", "p"⟩ = none ∧
      handle_message idTranslation unitEngine noneDecoders ()
        (Message.request
          ⟨RequestId.num 3, "textDocument/formatting", "p"⟩) = none ∧
      run_loop idTranslation unitEngine noneDecoders ()
        (Message.request ⟨RequestId.num 3, "textDocument/formatting", "p"⟩ ::
          []) = none) ∧
    (handle_notification idTranslation unitEngine noneDecoders ()
        ⟨"textDocument/didOpen", "q"⟩ = none ∧
      handle_message idTranslation unitEngine noneDecoders ()
        (Message.notification ⟨"textDocument/didOpen", "q"⟩) = none ∧
      run_loop idTranslation unitEngine noneDecoders ()
        (Message.notification ⟨"textDocument/didOpen", "q"⟩ :: []) =
        none) :=
  ⟨(C9_decode_failure_fatal idTranslation unitEngine noneDecoders).1 ()
      ⟨RequestId.num 3, "textDocument/formatting", "p"⟩ [] rfl,
    (C9_decode_failure_fatal idTranslation unitEngine noneDecoders).2 ()
      ⟨"textDocument/didOpen", "q"⟩ [] rfl⟩

/-- C10 witness: the single response of a concrete full run has
`error: None` and a `Some` result. -/
theorem C10_responses_never_carry_error_witness :
    ∃ id payload,
      OutMessage.response (RequestId.num 5) (some ("hover:p")) none =
        OutMessage.response id (some payload) none :=
  C10_responses_never_carry_error idTranslation unitEngine okDecoders
    capsYes () [Message.request ⟨RequestId.num 5, "textDocument/hover", "p"⟩]
    () c10OutExample rfl
    (OutMessage.response (RequestId.num 5) (some ("hover:p")) none)
    (by decide) rfl

end GleamLsp
